import Mathlib

/-!
Verification of the C++ console chat bot (`chat.cpp`) via a shallow
embedding in Lean.  Strings are modelled as Lean `String`s (lists of
characters); the source operates on byte strings, but every key, alias,
command token and format fragment in the program is plain ASCII, where the
two views coincide.  Calculator operands are modelled as exact rationals;
on the inputs appearing below the C++ `double` arithmetic is exact, so the
two semantics agree there.  The two `std::unordered_map`s are modelled as
association lists in insertion order; exact-key lookup does not depend on
the order, and the substring scan of `processInput` iterates in an
unspecified order in the source, here fixed to insertion order.
-/

set_option maxHeartbeats 1000000
set_option maxRecDepth 100000

attribute [local semireducible] Rat.add Rat.mul Rat.sub Rat.inv

namespace ChatBotSpec

namespace Util

/-- Models `std::tolower` in the C locale: ASCII `A`-`Z` map to `a`-`z`,
every other character is unchanged (chat.cpp, `Util::toLower`, lines 50-55). -/
def asciiLower (c : Char) : Char :=
  if 65 ≤ c.toNat ∧ c.toNat ≤ 90 then Char.ofNat (c.toNat + 32) else c

/-- Models `Util::toLower` (chat.cpp lines 50-55): lowercase every character. -/
def toLower (s : String) : String :=
  ⟨s.data.map asciiLower⟩

/-- The whitespace set `" \t\r\n"` used by `Util::trim` (chat.cpp line 58). -/
def isTrimChar (c : Char) : Bool :=
  c == ' ' || c == '\t' || c == '\r' || c == '\n'

/-- Models `Util::trim` on character lists (chat.cpp lines 57-62):
`find_first_not_of`/`find_last_not_of` over `" \t\r\n"`, i.e. drop the
maximal run of trim characters from both ends; all-whitespace input
yields the empty list. -/
def trimList (cs : List Char) : List Char :=
  (((cs.dropWhile isTrimChar).reverse.dropWhile isTrimChar)).reverse

/-- Models `Util::trim` (chat.cpp lines 57-62). -/
def trim (s : String) : String :=
  ⟨trimList s.data⟩

/-- Models `Util::normalize` (chat.cpp lines 64-66): `toLower(trim(s))`. -/
def normalize (s : String) : String :=
  toLower (trim s)

end Util

/-- The `responses_` map of `ChatBot::initResponses` (chat.cpp lines
147-189), in insertion order. -/
def responses : List (String × String) :=
  [ ("hi", "Hello to you too! 👋"),
    ("hello", "Hi there! How can I help you today?"),
    ("hey", "Hey!!! What\x27s on your mind?"),
    ("good morning", "Good morning! ☀️  Hope you\x27re having a great start!"),
    ("good night", "Good night! 🌙 Sweet dreams!"),
    ("how are you?", "I\x27m running at full clock speed — so pretty great! And you?"),
    ("what\x27s up?", "Just processing bits and bytes. You?"),
    ("what\x27s your name?", "I\x27m ChatBot — your friendly C++ console companion!"),
    ("who are you?", "I\x27m a chatbot written in modern C++ — originally created by Yunus Emre Vurgun in 2022, now modernized and enhanced."),
    ("what are you?", "I\x27m a console-based chatbot. Think of me as a very talkative terminal program. 🤖"),
    ("are we friends?", "Absolutely! Friends don\x27t let friends code alone. 🤝"),
    ("do you have feelings?", "I only cry when I smell onions... or see segfaults. 😢"),
    ("are you a robot?", "Technically, yes — but I prefer \x27digital conversationalist\x27. 🤖"),
    ("are you human?", "Nope! 100% compiled code. No coffee needed (but I wouldn\x27t say no)."),
    ("do you have a brain?", "I have logic, loops, and a lot of if-else statements. Close enough?"),
    ("who made you?", "Originally programmed by Yunus Emre Vurgun. I\x27ve been upgraded since then!"),
    ("can you browse the net?", "No, I live entirely in your terminal. No internet access here!"),
    ("what are the main colors?", "The 11 basic colors are: black, white, red, green, yellow, blue, pink, gray, brown, orange, and purple. 🎨"),
    ("what is c++?", "C++ is a general-purpose programming language created by Bjarne Stroustrup as an extension of C — often called \x27C with Classes\x27. It powers games, OSes, and... me!"),
    ("what is a computer program?", "A computer program is a sequence of instructions that a computer can execute. In its human-readable form, it\x27s called source code. You\x27re looking at one right now!"),
    ("can you speak other languages?", "Un poco español, mi amigo! Naber dostum! ...Okay, just English really. 😅"),
    ("can you understand binary?", "01001000 01101001! ...Just kidding. I\x27m a program, not the CPU itself. But the instructions to run me ARE binary under the hood."),
    ("how do you understand me?", "I match your input against patterns I know. It\x27s not true understanding — more like a really enthusiastic lookup table! 📖"),
    ("thank you", "You\x27re welcome! Happy to help. 😊"),
    ("thanks", "Anytime! That\x27s what I\x27m here for."),
    ("sorry", "No worries at all! What can I do for you?"),
    ("lol", "Glad I could make you laugh! 😄"),
    ("haha", "😄 I try my best!"),
    ("nice", "Thanks! You\x27re pretty nice yourself!"),
    ("cool", "Right? I think so too. 😎"),
    ("yes", "Great! What else would you like to talk about?"),
    ("no", "Alright, no problem. Anything else?"),
    ("ok", "Okay! I\x27m here if you need me."),
    ("okay", "Sure thing! What\x27s next?") ]

/-- The `aliases_` map of `ChatBot::initAliases` (chat.cpp lines 191-220),
in insertion order: alternative phrasing to canonical key. -/
def aliases : List (String × String) :=
  [ ("sup", "what\x27s up?"),
    ("what\x27s up", "what\x27s up?"),
    ("whats up", "what\x27s up?"),
    ("howdy", "hi"),
    ("yo", "hey"),
    ("greetings", "hello"),
    ("what is your name?", "what\x27s your name?"),
    ("what is your name", "what\x27s your name?"),
    ("whats your name", "what\x27s your name?"),
    ("your name?", "what\x27s your name?"),
    ("who are you", "who are you?"),
    ("what are you", "what are you?"),
    ("are you a bot?", "are you a robot?"),
    ("are you a bot", "are you a robot?"),
    ("are you real?", "are you human?"),
    ("are you real", "are you human?"),
    ("who created you?", "who made you?"),
    ("who created you", "who made you?"),
    ("what is c++ ?", "what is c++?"),
    ("what is c++", "what is c++?"),
    ("what is cpp?", "what is c++?"),
    ("what is cpp", "what is c++?"),
    ("thx", "thanks"),
    ("ty", "thanks"),
    ("thank u", "thank you"),
    ("gm", "good morning"),
    ("gn", "good night") ]

/-- Exact-key lookup, modelling `std::unordered_map::find` (which compares
keys for equality; the association list has pairwise distinct keys). -/
def lookup : List (String × String) → String → Option String
  | [], _ => none
  | (k, v) :: rest, key => if key == k then some v else lookup rest key

/-- Helper: is `needle` a prefix of `haystack` (character lists). -/
def isPrefixOfL : List Char → List Char → Bool
  | [], _ => true
  | _ :: _, [] => false
  | a :: as, b :: bs => a == b && isPrefixOfL as bs

/-- Helper: does `haystack` contain `needle` as a contiguous run. -/
def containsSub (needle : List Char) : List Char → Bool
  | [] => isPrefixOfL needle []
  | c :: t => isPrefixOfL needle (c :: t) || containsSub needle t

/-- Models `hay.find(needle) != std::string::npos` (chat.cpp line 458). -/
def strContains (hay needle : String) : Bool :=
  containsSub needle.data hay.data

/-- The two-line no-match fallback of `ChatBot::processInput`
(chat.cpp lines 465-468). -/
def fallbackLines : List String :=
  [ "Hmm, I don\x27t quite understand that. 🤔",
    "Try \x27help\x27 to see what I can do, or just say hi!" ]

/-- The partial-match scan of `ChatBot::processInput` (chat.cpp lines
457-462): first map entry whose key occurs in the input as a substring and
has length at least 3, in iteration order. -/
def substringScan : List (String × String) → String → Option String
  | [], _ => none
  | (key, resp) :: rest, input =>
    if strContains input key && decide (3 ≤ key.length) then some resp
    else substringScan rest input

/-- Tail of the response resolution (chat.cpp lines 449-468): direct
lexicon lookup, then substring scan, then the fixed fallback. -/
def resolveRest (input : String) : List String :=
  match lookup responses input with
  | some resp => [resp]
  | none =>
    match substringScan responses input with
    | some resp => [resp]
    | none => fallbackLines

/-- The response-resolver part of `ChatBot::processInput` for non-command
input (chat.cpp lines 439-468), returning the list of lines the bot
prints: alias indirection first (falling through when the alias target is
missing from the lexicon, as the source does), then `resolveRest`. -/
def resolveLines (input : String) : List String :=
  match lookup aliases input with
  | some target =>
    match lookup responses target with
    | some resp => [resp]
    | none => resolveRest input
  | none => resolveRest input

/-- Whitespace skipped by stream extraction (`isspace` in the C locale). -/
def isStreamWs (c : Char) : Bool :=
  c == ' ' || c == '\t' || c == '\n' || c == '\r' || c == '\x0b' || c == '\x0c'

/-- Maximal run of ASCII digits and the rest of the input. -/
def takeDigits : List Char → List Char × List Char
  | [] => ([], [])
  | c :: cs =>
    if c.isDigit then
      let p := takeDigits cs
      (c :: p.1, p.2)
    else ([], c :: cs)

/-- Numeric value of a digit run. -/
def digitsToNat : List Char → Nat :=
  List.foldl (fun n c => n * 10 + (c.toNat - 48)) 0

/-- Unsigned decimal mantissa `digits [. digits]` needing at least one
digit, as accepted by stream extraction of a `double` into `a` and `b`
(chat.cpp line 499).  Decimal forms only: hexfloat, inf and nan spellings
are not modelled.  The value is kept exact as a rational. -/
def parseUnsigned (cs : List Char) : Option (ℚ × List Char) :=
  let ip := takeDigits cs
  match ip.2 with
  | '.' :: r2 =>
    let fp := takeDigits r2
    if ip.1.isEmpty && fp.1.isEmpty then none
    else
      some ((digitsToNat ip.1 : ℚ) + (digitsToNat fp.1 : ℚ) / ((10 : ℚ) ^ fp.1.length),
        fp.2)
  | _ => if ip.1.isEmpty then none else some ((digitsToNat ip.1 : ℚ), ip.2)

/-- Optional exponent `e|E [+|-] digits`, consumed only when at least one
digit follows; otherwise the candidate exponent stays in the remainder. -/
def applyExp (q : ℚ) (cs : List Char) : ℚ × List Char :=
  match cs with
  | [] => (q, [])
  | c :: rest =>
    if c == 'e' || c == 'E' then
      match rest with
      | [] => (q, cs)
      | s :: rest2 =>
        if s == '+' then
          let ds := takeDigits rest2
          if ds.1.isEmpty then (q, cs) else (q * (10 : ℚ) ^ digitsToNat ds.1, ds.2)
        else if s == '-' then
          let ds := takeDigits rest2
          if ds.1.isEmpty then (q, cs) else (q / (10 : ℚ) ^ digitsToNat ds.1, ds.2)
        else
          let ds := takeDigits rest
          if ds.1.isEmpty then (q, cs) else (q * (10 : ℚ) ^ digitsToNat ds.1, ds.2)
    else (q, cs)

/-- Stream extraction of a `double`: skip whitespace, optional sign,
decimal mantissa, optional exponent. -/
def parseNumber (cs : List Char) : Option (ℚ × List Char) :=
  let cs2 := cs.dropWhile isStreamWs
  match cs2 with
  | '+' :: rest =>
    match parseUnsigned rest with
    | none => none
    | some qr =>
      let e := applyExp qr.1 qr.2
      some (e.1, e.2)
  | '-' :: rest =>
    match parseUnsigned rest with
    | none => none
    | some qr =>
      let e := applyExp qr.1 qr.2
      some (-e.1, e.2)
  | _ =>
    match parseUnsigned cs2 with
    | none => none
    | some qr =>
      let e := applyExp qr.1 qr.2
      some (e.1, e.2)

/-- Stream extraction of a `char`: skip whitespace, take one character. -/
def parseOpChar (cs : List Char) : Option (Char × List Char) :=
  match cs.dropWhile isStreamWs with
  | [] => none
  | c :: rest => some (c, rest)

/-- The chained extraction `iss >> a >> op >> b` of `ChatBot::runCalculator`
(chat.cpp line 499), together with the unread remainder of the line. -/
def parseExprR (cs : List Char) : Option ((ℚ × Char × ℚ) × List Char) :=
  match parseNumber cs with
  | none => none
  | some ar =>
    match parseOpChar ar.2 with
    | none => none
    | some opr =>
      match parseNumber opr.2 with
      | none => none
      | some br => some ((ar.1, opr.1, br.1), br.2)

/-- Parsed triple of a calculator line; the remainder is discarded because
the source never reads it. -/
def parseExpr (line : String) : Option (ℚ × Char × ℚ) :=
  (parseExprR line.data).map (fun x => x.1)

/-- Exit keywords of the calculator loop (chat.cpp lines 490-491), tested
on the lowercased trimmed line. -/
def isCalcExit (line : String) : Bool :=
  Util.toLower line == "done" || Util.toLower line == "exit" ||
  Util.toLower line == "back" || Util.toLower line == "quit"

/-- Outcome of one calculator loop iteration (chat.cpp lines 485-536). -/
inductive CalcStep where
  | exited : CalcStep
  | malformed : CalcStep
  | divByZero : CalcStep
  | unknownOp : Char → CalcStep
  | result : String → CalcStep
deriving DecidableEq

/-- Left-pad a digit string with zeros to width 4, for the fractional
part of `std::fixed` with `setprecision(4)`. -/
def pad4 (s : String) : String :=
  if 4 ≤ s.length then s else (⟨List.replicate (4 - s.length) '0'⟩ : String) ++ s

/-- Rounding `q * 10000` to an integer.  Exact whenever `q` has at most 4
decimal places, which covers every value appearing in the theorems below;
there the C++ double prints without any rounding. -/
def ratRound4 (q : ℚ) : ℤ :=
  let p : ℚ := q * 10000 + 1 / 2
  p.num / (p.den : ℤ)

/-- Rendering of a double under `std::fixed << std::setprecision(4)`
(chat.cpp line 526): sign, integer part, point, 4 fractional digits. -/
def fixed4 (q : ℚ) : String :=
  let sign := if q.num < 0 then "-" else ""
  let n : ℤ := ratRound4 (if q.num < 0 then -q else q)
  sign ++ toString (n / 10000) ++ "." ++ pad4 (toString (n % 10000))

/-- Trailing-zero cleanup of the whole result line (chat.cpp lines
529-533): when the line contains a dot, erase the maximal run of trailing
zero characters, then a trailing dot if one remains. -/
def stripZeros (res : String) : String :=
  if res.data.contains '.' then
    let r := (res.data.reverse.dropWhile (fun c => c == '0')).reverse
    if r.getLast? == some '.' then (⟨r.dropLast⟩ : String) else (⟨r⟩ : String)
  else res

/-- The result line `a op b = result` built by `runCalculator` (chat.cpp
lines 524-534), after zero stripping. -/
def formatResult (a : ℚ) (op : Char) (b : ℚ) (result : ℚ) : String :=
  stripZeros
    (fixed4 a ++ " " ++ String.singleton op ++ " " ++ fixed4 b ++ " = " ++ fixed4 result)

/-- Value computed by the operator switch when it succeeds (chat.cpp lines
506-522): `+ - * x /`, with division by zero and unknown operators
yielding no value. -/
def calcResultValue (op : Char) (a b : ℚ) : Option ℚ :=
  if op == '+' then some (a + b)
  else if op == '-' then some (a - b)
  else if op == '*' then some (a * b)
  else if op == 'x' then some (a * b)
  else if op == '/' then (if b == 0 then none else some (a / b))
  else none

/-- The operator switch of `runCalculator` (chat.cpp lines 504-535). -/
def calcSwitch (a : ℚ) (op : Char) (b : ℚ) : CalcStep :=
  if op == '+' then .result ("✅ " ++ formatResult a op b (a + b))
  else if op == '-' then .result ("✅ " ++ formatResult a op b (a - b))
  else if op == '*' then .result ("✅ " ++ formatResult a op b (a * b))
  else if op == 'x' then .result ("✅ " ++ formatResult a op b (a * b))
  else if op == '/' then
    if b == 0 then .divByZero else .result ("✅ " ++ formatResult a op b (a / b))
  else .unknownOp op

/-- One iteration of the calculator loop on the trimmed line (chat.cpp
lines 485-536): exit keywords first, then parse, then evaluate. -/
def calcStep (line : String) : CalcStep :=
  if isCalcExit line then .exited
  else
    match parseExpr line with
    | none => .malformed
    | some t => calcSwitch t.1 t.2.1 t.2.2

/-- One iteration on the raw line as read: the loop trims it first
(chat.cpp line 488). -/
def calcIter (raw : String) : CalcStep :=
  calcStep (Util.trim raw)

/-- Whether the iteration keeps the calculator session active: every
outcome except the exit keywords loops back to the prompt. -/
def stepContinues : CalcStep → Bool
  | .exited => false
  | _ => true

/-- The lines `botSay` prints for one iteration outcome (chat.cpp lines
492, 500, 513, 520, 534). -/
def stepLines : CalcStep → List String
  | .exited => ["Exiting calculator. Back to chat! 💬"]
  | .malformed => ["⚠️  Please enter: <number> <operator> <number>  (e.g. 5 + 3)"]
  | .divByZero => ["⚠️  Division by zero! The universe would implode. 🌌"]
  | .unknownOp op => ["⚠️  Unknown operator \x27" ++ String.singleton op ++ "\x27. Use + - * /"]
  | .result line => [line]

/-- Exit tokens (chat.cpp line 362). -/
def isExitToken (s : String) : Bool :=
  s == "bye" || s == "exit" || s == "quit" || s == "q"

/-- Help tokens (chat.cpp line 368). -/
def isHelpToken (s : String) : Bool :=
  s == "help" || s == "manual" || s == "commands"

/-- Joke tokens (chat.cpp line 372). -/
def isJokeToken (s : String) : Bool :=
  s == "joke" || s == "tell me a joke" || s == "tell a joke"

/-- Fact tokens (chat.cpp line 376). -/
def isFactToken (s : String) : Bool :=
  s == "fact" || s == "tell me a fact" || s == "fun fact"

/-- Time and date tokens: the seven comparisons of chat.cpp lines 380-382. -/
def isTimeToken (s : String) : Bool :=
  s == "time" || s == "date" || s == "what time is it?" ||
  s == "what time is it" || s == "what\x27s the time?" ||
  s == "what is the date?" || s == "what is the date"

/-- Coin-flip tokens (chat.cpp line 386). -/
def isFlipToken (s : String) : Bool :=
  s == "flip" || s == "flip a coin" || s == "coin flip" || s == "coin"

/-- Dice tokens (chat.cpp line 391). -/
def isRollToken (s : String) : Bool :=
  s == "roll" || s == "roll a dice" || s == "roll dice" || s == "dice"

/-- Uptime tokens (chat.cpp line 396). -/
def isUptimeToken (s : String) : Bool :=
  s == "uptime" || s == "session"

/-- History tokens (chat.cpp line 403). -/
def isHistoryToken (s : String) : Bool :=
  s == "history" || s == "show history"

/-- Clear tokens (chat.cpp line 407). -/
def isClearToken (s : String) : Bool :=
  s == "clear" || s == "cls"

/-- Calculator-entry tokens (chat.cpp lines 432-434). -/
def isCalcTrigger (s : String) : Bool :=
  s == "calc" || s == "calculate" || s == "calculator" || s == "math" ||
  s == "add" || s == "sum" || s == "add numbers" ||
  s == "can you add integers for me?" || s == "can you calculate for me?"

/-- Dispatch target of `ChatBot::processInput` for a normalized input. -/
inductive Command where
  | exit : Command
  | help : Command
  | joke : Command
  | fact : Command
  | time : Command
  | flip : Command
  | roll : Command
  | uptime : Command
  | history : Command
  | clear : Command
  | reverseText : String → Command
  | countWords : String → Command
  | calc : Command
  | chat : String → Command
deriving DecidableEq

/-- The branch ladder of `ChatBot::processInput` (chat.cpp lines 360-437)
in source order; anything falling through every command test is resolved
as chat (lines 439-468).  The prefix tests `substr(0,8)` and `size()` are
byte-based in the source and character-based here; the two agree because
the tested prefixes are ASCII. -/
def route (input : String) : Command :=
  if isExitToken input then .exit
  else if isHelpToken input then .help
  else if isJokeToken input then .joke
  else if isFactToken input then .fact
  else if isTimeToken input then .time
  else if isFlipToken input then .flip
  else if isRollToken input then .roll
  else if isUptimeToken input then .uptime
  else if isHistoryToken input then .history
  else if isClearToken input then .clear
  else if (⟨input.data.take 8⟩ : String) == "reverse " && decide (8 < input.data.length) then
    .reverseText ⟨input.data.drop 8⟩
  else if (⟨input.data.take 6⟩ : String) == "count " && decide (6 < input.data.length) then
    .countWords ⟨input.data.drop 6⟩
  else if isCalcTrigger input then .calc
  else .chat input

/-- Mutable session state that `processInput` can touch: the running flag
and the history log (chat.cpp lines 131-133). -/
structure BotState where
  running : Bool
  history : List String
deriving DecidableEq

/-- State after construction (chat.cpp line 104): running, empty history. -/
def initialState : BotState :=
  { running := true, history := [] }

/-- The calculator sub-loop as a consumer of the shared input stream
(chat.cpp lines 484-494): it reads lines until end of input or an exit
keyword on the trimmed line, and touches neither the flag nor history. -/
def calcLoop : List String → List String
  | [] => []
  | raw :: rest => if isCalcExit (Util.trim raw) then rest else calcLoop rest

/-- Effect of one `processInput` call on the session state: only the exit
branch writes `running_` (chat.cpp lines 362-364); no branch writes the
history log. -/
def stateEffect (s : BotState) (input : String) : BotState :=
  match route input with
  | .exit => { s with running := false }
  | _ => s

/-- Effect of one `processInput` call on the unread part of the input
stream: only the calculator branch reads further lines (chat.cpp lines
432-436). -/
def streamEffect (input : String) (rest : List String) : List String :=
  match route input with
  | .calc => calcLoop rest
  | _ => rest

/-- The main loop of `ChatBot::run` (chat.cpp lines 115-125) over a finite
input stream (end of list is end of input, where `getline` fails and the
loop breaks).  Returns the final state, the list of inputs passed to
`processInput` (each first recorded to history), and the lines left
unread when the loop exits.  The fuel argument only makes the recursion
structural; each iteration consumes at least one line, so fuel at least
`inputs.length + 1` is never exhausted. -/
def runLoopAux : Nat → BotState → List String → BotState × List String × List String
  | 0, s, inputs => (s, [], inputs)
  | _ + 1, s, [] => (s, [], [])
  | fuel + 1, s, raw :: rest =>
    if s.running = false then (s, [], raw :: rest)
    else
      let input := Util.normalize raw
      if input = "" then runLoopAux fuel s rest
      else
        let out :=
          runLoopAux fuel (stateEffect { s with history := s.history ++ [input] } input)
            (streamEffect input rest)
        (out.1, input :: out.2.1, out.2.2)

/-- The main loop (chat.cpp lines 115-125), with sufficient fuel. -/
def runLoop (s : BotState) (inputs : List String) :
    BotState × List String × List String :=
  runLoopAux (inputs.length + 1) s inputs

/-- Message count printed by the goodbye banner and by the uptime command:
`history_.size()` (chat.cpp lines 295 and 400). -/
def messageCount (s : BotState) : Nat :=
  s.history.length

end ChatBotSpec

namespace ChatBotSpec

namespace Util

theorem toNat_ofNat_valid {n : Nat} (h : n.isValidChar) : (Char.ofNat n).toNat = n := by
  unfold Char.ofNat
  rw [dif_pos h]
  rfl

theorem asciiLower_toNat (c : Char) (h : 65 ≤ c.toNat ∧ c.toNat ≤ 90) :
    (asciiLower c).toNat = c.toNat + 32 := by
  unfold asciiLower
  rw [if_pos h]
  exact toNat_ofNat_valid (Or.inl (by omega))

theorem char_toNat_inj {a b : Char} (h : a.toNat = b.toNat) : a = b :=
  Char.ext (UInt32.toNat.inj h)

theorem asciiLower_eq_self (c : Char) (h : ¬(65 ≤ c.toNat ∧ c.toNat ≤ 90)) :
    asciiLower c = c := by
  unfold asciiLower
  rw [if_neg h]

theorem asciiLower_idem (c : Char) : asciiLower (asciiLower c) = asciiLower c := by
  by_cases h : 65 ≤ c.toNat ∧ c.toNat ≤ 90
  · exact asciiLower_eq_self _ (by rw [asciiLower_toNat c h]; omega)
  · rw [asciiLower_eq_self c h]
    exact asciiLower_eq_self c h

theorem isTrimChar_iff (c : Char) :
    isTrimChar c = true ↔ c.toNat = 32 ∨ c.toNat = 9 ∨ c.toNat = 13 ∨ c.toNat = 10 := by
  unfold isTrimChar
  simp only [Bool.or_eq_true, beq_iff_eq]
  constructor
  · rintro (((rfl | rfl) | rfl) | rfl)
    · exact Or.inl (by decide)
    · exact Or.inr (Or.inl (by decide))
    · exact Or.inr (Or.inr (Or.inl (by decide)))
    · exact Or.inr (Or.inr (Or.inr (by decide)))
  · rintro (h | h | h | h)
    · exact Or.inl (Or.inl (Or.inl (char_toNat_inj (by rw [h]; decide))))
    · exact Or.inl (Or.inl (Or.inr (char_toNat_inj (by rw [h]; decide))))
    · exact Or.inl (Or.inr (char_toNat_inj (by rw [h]; decide)))
    · exact Or.inr (char_toNat_inj (by rw [h]; decide))

theorem isTrimChar_asciiLower (c : Char) : isTrimChar (asciiLower c) = isTrimChar c := by
  by_cases h : 65 ≤ c.toNat ∧ c.toNat ≤ 90
  · have h1 := asciiLower_toNat c h
    have e1 : isTrimChar (asciiLower c) = false := by
      rw [Bool.eq_false_iff]
      intro hc
      rcases (isTrimChar_iff _).mp hc with h2 | h2 | h2 | h2 <;> rw [h1] at h2 <;> omega
    have e2 : isTrimChar c = false := by
      rw [Bool.eq_false_iff]
      intro hc
      rcases (isTrimChar_iff _).mp hc with h2 | h2 | h2 | h2 <;> omega
    rw [e1, e2]
  · rw [asciiLower_eq_self c h]

theorem dropWhile_map_lower (l : List Char) :
    (l.map asciiLower).dropWhile isTrimChar =
      (l.dropWhile isTrimChar).map asciiLower := by
  have hp : (isTrimChar ∘ asciiLower) = isTrimChar := by
    funext c
    simp only [Function.comp_apply]
    exact isTrimChar_asciiLower c
  rw [List.dropWhile_map, hp]

theorem trimList_map_lower (l : List Char) :
    trimList (l.map asciiLower) = (trimList l).map asciiLower := by
  unfold trimList
  rw [dropWhile_map_lower, ← List.map_reverse, dropWhile_map_lower, ← List.map_reverse]

theorem dropWhile_idem (p : Char → Bool) (l : List Char) :
    (l.dropWhile p).dropWhile p = l.dropWhile p := by
  induction l with
  | nil => rfl
  | cons c cs ih =>
    by_cases h : p c = true
    · rw [List.dropWhile_cons_of_pos h]
      exact ih
    · rw [List.dropWhile_cons_of_neg (by simpa using h),
          List.dropWhile_cons_of_neg (by simpa using h)]

theorem dropWhile_fixed_of_head (p : Char → Bool) (l : List Char)
    (h : l.dropWhile p = l) :
    ((l.reverse.dropWhile p).reverse).dropWhile p = (l.reverse.dropWhile p).reverse := by
  match l with
  | [] => simp
  | c :: cs =>
    have hc : p c = false := by
      by_cases hpc : p c = true
      · rw [List.dropWhile_cons_of_pos hpc] at h
        have hle := (List.dropWhile_sublist (l := cs) p).length_le
        have hlen := congrArg List.length h
        simp only [List.length_cons] at hlen
        omega
      · simpa using hpc
    rw [List.reverse_cons, List.dropWhile_append]
    split
    · simp [hc]
    · simp [hc]

theorem trimList_idem (l : List Char) : trimList (trimList l) = trimList l := by
  unfold trimList
  have h1 : (l.dropWhile isTrimChar).dropWhile isTrimChar = l.dropWhile isTrimChar :=
    dropWhile_idem _ _
  rw [dropWhile_fixed_of_head isTrimChar (l.dropWhile isTrimChar) h1,
      List.reverse_reverse, dropWhile_idem]

theorem map_lower_idem (l : List Char) :
    (l.map asciiLower).map asciiLower = l.map asciiLower := by
  rw [List.map_map]
  apply List.map_congr_left
  intro c _
  exact asciiLower_idem c

theorem normalizeList_idem (d : List Char) :
    (trimList ((trimList d).map asciiLower)).map asciiLower =
      (trimList d).map asciiLower := by
  rw [trimList_map_lower, trimList_idem, map_lower_idem]

end Util

theorem substringScan_none_iff (l : List (String × String)) (input : String) :
    substringScan l input = none ↔
      ∀ kv ∈ l, ¬(strContains input kv.1 = true ∧ 3 ≤ kv.1.length) := by
  induction l with
  | nil => simp [substringScan]
  | cons kv rest ih =>
    unfold substringScan
    by_cases h : (strContains input kv.1 && decide (3 ≤ kv.1.length)) = true
    · rw [if_pos h]
      simp only [Bool.and_eq_true, decide_eq_true_eq] at h
      simp only [List.mem_cons]
      constructor
      · intro hfalse
        exact absurd hfalse (by simp)
      · intro hall
        exact absurd ⟨h.1, h.2⟩ (hall kv (Or.inl rfl))
    · rw [if_neg h]
      simp only [Bool.and_eq_true, decide_eq_true_eq] at h
      rw [ih]
      simp only [List.mem_cons]
      constructor
      · intro hall y hy
        rcases hy with rfl | hy
        · intro hcon
          exact h ⟨hcon.1, by simpa using hcon.2⟩
        · exact hall y hy
      · intro hall y hy
        exact hall y (Or.inr hy)

theorem substringScan_some (l : List (String × String)) (input : String) (r : String)
    (h : substringScan l input = some r) :
    ∃ kv ∈ l, strContains input kv.1 = true ∧ 3 ≤ kv.1.length ∧ r = kv.2 := by
  induction l with
  | nil => simp [substringScan] at h
  | cons kv rest ih =>
    unfold substringScan at h
    by_cases hc : (strContains input kv.1 && decide (3 ≤ kv.1.length)) = true
    · rw [if_pos hc] at h
      simp only [Bool.and_eq_true, decide_eq_true_eq] at hc
      exact ⟨kv, List.mem_cons_self kv rest, hc.1, hc.2, (Option.some_inj.mp h).symm⟩
    · rw [if_neg hc] at h
      obtain ⟨kv2, hmem, hprop⟩ := ih h
      exact ⟨kv2, List.mem_cons_of_mem kv hmem, hprop⟩

end ChatBotSpec

/-- C8: normalization (trim then ASCII-lowercase, chat.cpp lines 50-66) is
idempotent: `normalize (normalize s) = normalize s` for every string `s`. -/
theorem ChatBotSpec.C8_normalize_idempotent (s : String) :
    ChatBotSpec.Util.normalize (ChatBotSpec.Util.normalize s) =
      ChatBotSpec.Util.normalize s := by
  show String.mk
      ((ChatBotSpec.Util.trimList
        ((ChatBotSpec.Util.trimList s.data).map ChatBotSpec.Util.asciiLower)).map
          ChatBotSpec.Util.asciiLower)
    = String.mk ((ChatBotSpec.Util.trimList s.data).map ChatBotSpec.Util.asciiLower)
  exact congrArg String.mk (ChatBotSpec.Util.normalizeList_idem s.data)

/-- C1: for every canonical phrase of the lexicon, resolving it as
non-command input returns exactly its stored response (chat.cpp lines
449-454), and for every alias key, its target is a lexicon key and
resolving the alias returns exactly the response stored under the target
(chat.cpp lines 191-220 and 439-447). -/
theorem ChatBotSpec.C1_exact_and_alias :
    (∀ kv ∈ ChatBotSpec.responses, ChatBotSpec.resolveLines kv.1 = [kv.2]) ∧
    (∀ kv ∈ ChatBotSpec.aliases,
      (ChatBotSpec.lookup ChatBotSpec.responses kv.2).isSome = true ∧
      ChatBotSpec.resolveLines kv.1 =
        [(ChatBotSpec.lookup ChatBotSpec.responses kv.2).getD ""]) := by
  decide

/-- Witness for C1 at concrete inputs: the canonical phrase "hi" and the
alias "howdy" (whose target is "hi"). -/
theorem ChatBotSpec.C1_witness :
    ChatBotSpec.resolveLines "hi" = ["Hello to you too! 👋"] ∧
    ChatBotSpec.resolveLines "howdy" =
      [(ChatBotSpec.lookup ChatBotSpec.responses "hi").getD ""] :=
  ⟨ChatBotSpec.C1_exact_and_alias.1 ("hi", "Hello to you too! 👋") (by decide),
   (ChatBotSpec.C1_exact_and_alias.2 ("howdy", "hi") (by decide)).2⟩

/-- C2: for input that is neither an exact lexicon key nor an alias key, if
the input contains some lexicon key of length at least 3 as a substring,
the resolver returns the response of such a contained key (the first in
map-iteration order, chat.cpp lines 457-462); if every contained key is
shorter than 3 characters, it returns the fixed two-line fallback
(chat.cpp lines 465-468). -/
theorem ChatBotSpec.C2_substring_fallback (input : String)
    (hal : ChatBotSpec.lookup ChatBotSpec.aliases input = none)
    (hre : ChatBotSpec.lookup ChatBotSpec.responses input = none) :
    ((∃ kv ∈ ChatBotSpec.responses,
        3 ≤ kv.1.length ∧ ChatBotSpec.strContains input kv.1 = true) →
      ∃ kv ∈ ChatBotSpec.responses,
        3 ≤ kv.1.length ∧ ChatBotSpec.strContains input kv.1 = true ∧
        ChatBotSpec.resolveLines input = [kv.2]) ∧
    ((∀ kv ∈ ChatBotSpec.responses,
        ChatBotSpec.strContains input kv.1 = true → kv.1.length < 3) →
      ChatBotSpec.resolveLines input = ChatBotSpec.fallbackLines) := by
  have hres : ChatBotSpec.resolveLines input =
      match ChatBotSpec.substringScan ChatBotSpec.responses input with
      | some resp => [resp]
      | none => ChatBotSpec.fallbackLines := by
    unfold ChatBotSpec.resolveLines
    rw [hal]
    unfold ChatBotSpec.resolveRest
    rw [hre]
  constructor
  · intro hex
    cases hscan : ChatBotSpec.substringScan ChatBotSpec.responses input with
    | none =>
      obtain ⟨kv, hmem, hlen, hcon⟩ := hex
      exact absurd ⟨hcon, hlen⟩
        (((ChatBotSpec.substringScan_none_iff _ _).mp hscan) kv hmem)
    | some r =>
      obtain ⟨kv, hmem, hcon, hlen, hr⟩ :=
        ChatBotSpec.substringScan_some _ _ _ hscan
      refine ⟨kv, hmem, hlen, hcon, ?_⟩
      rw [hres, hscan, hr]
  · intro hall
    have hscan : ChatBotSpec.substringScan ChatBotSpec.responses input = none := by
      rw [ChatBotSpec.substringScan_none_iff]
      intro kv hmem hcl
      have := hall kv hmem hcl.1
      omega
    rw [hres, hscan]

/-- Witness for C2 at the concrete input "nonsense": it is not a key nor an
alias, contains only the 2-character key "no", and resolves to the
fallback message. -/
theorem ChatBotSpec.C2_witness :
    ChatBotSpec.resolveLines "nonsense" = ChatBotSpec.fallbackLines :=
  (ChatBotSpec.C2_substring_fallback "nonsense" (by decide) (by decide)).2 (by decide)

namespace ChatBotSpec

theorem calcSwitch_of_value (a b r : ℚ) (op : Char)
    (h : calcResultValue op a b = some r) :
    calcSwitch a op b = CalcStep.result ("✅ " ++ formatResult a op b r) := by
  unfold calcResultValue at h
  unfold calcSwitch
  split_ifs at h ⊢ <;> simp_all

theorem calcStep_eval (line : String) (t : ℚ × Char × ℚ)
    (hexit : isCalcExit line = false) (hp : parseExpr line = some t) :
    calcStep line = calcSwitch t.1 t.2.1 t.2.2 := by
  simp [calcStep, hexit, hp]

end ChatBotSpec

/-- C3 fails on the code: a successful computation does not echo the input
expression.  The operands are re-rendered in fixed 4-decimal notation
(chat.cpp line 526), so the input line "5 + 3" yields the result line
"✅ 5.0000 + 3.0000 = 8", which differs from the "5 + 3 = 8" stated by the
claim, with or without the checkmark prefix of `botSay`. -/
theorem ChatBotSpec.C3_counterexample :
    ChatBotSpec.calcStep "5 + 3" = ChatBotSpec.CalcStep.result "✅ 5.0000 + 3.0000 = 8" ∧
    "✅ 5.0000 + 3.0000 = 8" ≠ "5 + 3 = 8" ∧
    "✅ 5.0000 + 3.0000 = 8" ≠ "✅ 5 + 3 = 8" :=
  ⟨by decide, by decide, by decide⟩

/-- C3 amended: every successful computation emits one line consisting of
the two operands re-rendered in fixed 4-decimal notation around the
operator character, then " = " and the result in fixed 4-decimal
notation, with the maximal run of trailing zeros (and then a trailing
decimal point) stripped from the end of the whole line; "5 + 3" thus
produces "✅ 5.0000 + 3.0000 = 8" and "7 / 2" produces
"✅ 7.0000 / 2.0000 = 3.5". -/
theorem ChatBotSpec.C3_amended :
    ChatBotSpec.calcStep "5 + 3" = ChatBotSpec.CalcStep.result "✅ 5.0000 + 3.0000 = 8" ∧
    ChatBotSpec.calcStep "7 / 2" = ChatBotSpec.CalcStep.result "✅ 7.0000 / 2.0000 = 3.5" ∧
    (∀ (line : String) (a : ℚ) (op : Char) (b r : ℚ),
      ChatBotSpec.isCalcExit line = false →
      ChatBotSpec.parseExpr line = some (a, op, b) →
      ChatBotSpec.calcResultValue op a b = some r →
      ChatBotSpec.calcStep line =
        ChatBotSpec.CalcStep.result ("✅ " ++ ChatBotSpec.formatResult a op b r)) := by
  refine ⟨by decide, by decide, ?_⟩
  intro line a op b r hexit hp hv
  rw [ChatBotSpec.calcStep_eval line (a, op, b) hexit hp]
  exact ChatBotSpec.calcSwitch_of_value a b r op hv

/-- Witness for the amended C3 at the concrete line "7 / 2". -/
theorem ChatBotSpec.C3_amended_witness :
    ChatBotSpec.calcStep "7 / 2" =
      ChatBotSpec.CalcStep.result
        ("✅ " ++ ChatBotSpec.formatResult 7 '/' 2 (7 / 2)) :=
  ChatBotSpec.C3_amended.2.2 "7 / 2" 7 '/' 2 (7 / 2) (by decide) (by decide) (by decide)

/-- C4: in the calculator, a line parsing as `a / b` with `b = 0` emits
exactly the division-by-zero warning (which contains no "=" character, so
no result line appears) and the session stays active; a line that fails
to parse emits the usage warning and likewise stays active (chat.cpp
lines 496-522). -/
theorem ChatBotSpec.C4_divzero_malformed (line : String)
    (hexit : ChatBotSpec.isCalcExit line = false) :
    (∀ a b, ChatBotSpec.parseExpr line = some (a, '/', b) → b = 0 →
      ChatBotSpec.calcStep line = ChatBotSpec.CalcStep.divByZero ∧
      ChatBotSpec.stepLines (ChatBotSpec.calcStep line) =
        ["⚠️  Division by zero! The universe would implode. 🌌"] ∧
      (ChatBotSpec.stepLines (ChatBotSpec.calcStep line)).all
        (fun l => !(l.data.contains '=')) = true ∧
      ChatBotSpec.stepContinues (ChatBotSpec.calcStep line) = true) ∧
    (ChatBotSpec.parseExpr line = none →
      ChatBotSpec.calcStep line = ChatBotSpec.CalcStep.malformed ∧
      ChatBotSpec.stepLines (ChatBotSpec.calcStep line) =
        ["⚠️  Please enter: <number> <operator> <number>  (e.g. 5 + 3)"] ∧
      ChatBotSpec.stepContinues (ChatBotSpec.calcStep line) = true) := by
  constructor
  · intro a b hp hb
    subst hb
    have hstep : ChatBotSpec.calcStep line = ChatBotSpec.CalcStep.divByZero := by
      rw [ChatBotSpec.calcStep_eval line (a, '/', 0) hexit hp]
      unfold ChatBotSpec.calcSwitch
      rw [if_neg (show ¬(('/' : Char) == '+') = true by decide),
          if_neg (show ¬(('/' : Char) == '-') = true by decide),
          if_neg (show ¬(('/' : Char) == '*') = true by decide),
          if_neg (show ¬(('/' : Char) == 'x') = true by decide),
          if_pos (show (('/' : Char) == '/') = true by decide),
          if_pos (show ((0 : ℚ) == 0) = true by decide)]
    rw [hstep]
    exact ⟨rfl, rfl, by decide, rfl⟩
  · intro hp
    have hstep : ChatBotSpec.calcStep line = ChatBotSpec.CalcStep.malformed := by
      simp [ChatBotSpec.calcStep, hexit, hp]
    rw [hstep]
    exact ⟨rfl, rfl, rfl⟩

/-- Witness for C4 at the concrete lines "10 / 0" and "bad input". -/
theorem ChatBotSpec.C4_witness :
    ChatBotSpec.calcStep "10 / 0" = ChatBotSpec.CalcStep.divByZero ∧
    ChatBotSpec.stepContinues (ChatBotSpec.calcStep "10 / 0") = true ∧
    ChatBotSpec.calcStep "bad input" = ChatBotSpec.CalcStep.malformed :=
  ⟨((ChatBotSpec.C4_divzero_malformed "10 / 0" (by decide)).1 10 0 (by decide) rfl).1,
   ((ChatBotSpec.C4_divzero_malformed "10 / 0" (by decide)).1 10 0 (by decide) rfl).2.2.2,
   ((ChatBotSpec.C4_divzero_malformed "bad input" (by decide)).2 (by decide)).1⟩

/-- C10: the calculator accepts any line whose prefix parses as
number-operator-number regardless of whitespace around the operator, and
the characters left on the line after the second number never influence
the outcome: the outcome is a function of the parsed triple alone.  In
particular "5+3" is computed, not rejected, and trailing junk is
ignored. -/
theorem ChatBotSpec.C10_parse_flexible :
    (∀ (l1 l2 : String) (t : ℚ × Char × ℚ) (r1 r2 : List Char),
      ChatBotSpec.isCalcExit l1 = false → ChatBotSpec.isCalcExit l2 = false →
      ChatBotSpec.parseExprR l1.data = some (t, r1) →
      ChatBotSpec.parseExprR l2.data = some (t, r2) →
      ChatBotSpec.calcStep l1 = ChatBotSpec.calcStep l2) ∧
    ChatBotSpec.parseExprR "5+3".data = some ((5, '+', 3), []) ∧
    ChatBotSpec.calcStep "5+3" = ChatBotSpec.CalcStep.result "✅ 5.0000 + 3.0000 = 8" ∧
    ChatBotSpec.calcStep "5 + 3 and then some junk" =
      ChatBotSpec.CalcStep.result "✅ 5.0000 + 3.0000 = 8" := by
  refine ⟨?_, by decide, by decide, by decide⟩
  intro l1 l2 t r1 r2 h1 h2 hp1 hp2
  have e1 : ChatBotSpec.parseExpr l1 = some t := by
    unfold ChatBotSpec.parseExpr
    rw [hp1]
    rfl
  have e2 : ChatBotSpec.parseExpr l2 = some t := by
    unfold ChatBotSpec.parseExpr
    rw [hp2]
    rfl
  rw [ChatBotSpec.calcStep_eval l1 t h1 e1, ChatBotSpec.calcStep_eval l2 t h2 e2]

/-- Witness for C10: the whitespace-free line computes the same outcome as
the spaced line with trailing junk. -/
theorem ChatBotSpec.C10_witness :
    ChatBotSpec.calcStep "5+3" = ChatBotSpec.calcStep "5 + 3 junk" :=
  ChatBotSpec.C10_parse_flexible.1 "5+3" "5 + 3 junk" (5, '+', 3) [] " junk".data
    (by decide) (by decide) (by decide) (by decide)

namespace ChatBotSpec

theorem route_time_iff (input : String) :
    route input = Command.time ↔ isTimeToken input = true := by
  constructor
  · intro h
    unfold route at h
    by_cases h1 : isExitToken input = true
    · rw [if_pos h1] at h
      cases h
    rw [if_neg h1] at h
    by_cases h2 : isHelpToken input = true
    · rw [if_pos h2] at h
      cases h
    rw [if_neg h2] at h
    by_cases h3 : isJokeToken input = true
    · rw [if_pos h3] at h
      cases h
    rw [if_neg h3] at h
    by_cases h4 : isFactToken input = true
    · rw [if_pos h4] at h
      cases h
    rw [if_neg h4] at h
    by_cases h5 : isTimeToken input = true
    · exact h5
    rw [if_neg h5] at h
    by_cases h6 : isFlipToken input = true
    · rw [if_pos h6] at h
      cases h
    rw [if_neg h6] at h
    by_cases h7 : isRollToken input = true
    · rw [if_pos h7] at h
      cases h
    rw [if_neg h7] at h
    by_cases h8 : isUptimeToken input = true
    · rw [if_pos h8] at h
      cases h
    rw [if_neg h8] at h
    by_cases h9 : isHistoryToken input = true
    · rw [if_pos h9] at h
      cases h
    rw [if_neg h9] at h
    by_cases h10 : isClearToken input = true
    · rw [if_pos h10] at h
      cases h
    rw [if_neg h10] at h
    by_cases h11 : ((⟨input.data.take 8⟩ : String) == "reverse " && decide (8 < input.data.length)) = true
    · rw [if_pos h11] at h
      cases h
    rw [if_neg h11] at h
    by_cases h12 : ((⟨input.data.take 6⟩ : String) == "count " && decide (6 < input.data.length)) = true
    · rw [if_pos h12] at h
      cases h
    rw [if_neg h12] at h
    by_cases h13 : isCalcTrigger input = true
    · rw [if_pos h13] at h
      cases h
    rw [if_neg h13] at h
    cases h
  · intro ht
    have h7 : input = "time" ∨ input = "date" ∨ input = "what time is it?" ∨
        input = "what time is it" ∨ input = "what\x27s the time?" ∨
        input = "what is the date?" ∨ input = "what is the date" := by
      simpa [isTimeToken, Bool.or_eq_true, beq_iff_eq, or_assoc] using ht
    rcases h7 with rfl | rfl | rfl | rfl | rfl | rfl | rfl <;> decide

theorem route_exit_iff (input : String) :
    route input = Command.exit ↔ isExitToken input = true := by
  constructor
  · intro h
    unfold route at h
    by_cases h1 : isExitToken input = true
    · exact h1
    rw [if_neg h1] at h
    by_cases h2 : isHelpToken input = true
    · rw [if_pos h2] at h
      cases h
    rw [if_neg h2] at h
    by_cases h3 : isJokeToken input = true
    · rw [if_pos h3] at h
      cases h
    rw [if_neg h3] at h
    by_cases h4 : isFactToken input = true
    · rw [if_pos h4] at h
      cases h
    rw [if_neg h4] at h
    by_cases h5 : isTimeToken input = true
    · rw [if_pos h5] at h
      cases h
    rw [if_neg h5] at h
    by_cases h6 : isFlipToken input = true
    · rw [if_pos h6] at h
      cases h
    rw [if_neg h6] at h
    by_cases h7 : isRollToken input = true
    · rw [if_pos h7] at h
      cases h
    rw [if_neg h7] at h
    by_cases h8 : isUptimeToken input = true
    · rw [if_pos h8] at h
      cases h
    rw [if_neg h8] at h
    by_cases h9 : isHistoryToken input = true
    · rw [if_pos h9] at h
      cases h
    rw [if_neg h9] at h
    by_cases h10 : isClearToken input = true
    · rw [if_pos h10] at h
      cases h
    rw [if_neg h10] at h
    by_cases h11 : ((⟨input.data.take 8⟩ : String) == "reverse " && decide (8 < input.data.length)) = true
    · rw [if_pos h11] at h
      cases h
    rw [if_neg h11] at h
    by_cases h12 : ((⟨input.data.take 6⟩ : String) == "count " && decide (6 < input.data.length)) = true
    · rw [if_pos h12] at h
      cases h
    rw [if_neg h12] at h
    by_cases h13 : isCalcTrigger input = true
    · rw [if_pos h13] at h
      cases h
    rw [if_neg h13] at h
    cases h
  · intro ht
    have h4 : input = "bye" ∨ input = "exit" ∨ input = "quit" ∨ input = "q" := by
      simpa [isExitToken, Bool.or_eq_true, beq_iff_eq, or_assoc] using ht
    rcases h4 with rfl | rfl | rfl | rfl <;> decide

end ChatBotSpec

/-- C6 fails on the code: the time and date branch of `processInput`
compares against seven exact phrases, not six (chat.cpp lines 380-382).
The seven pairwise distinct inputs listed here all route to the date-time
emitter, so no 6-element set can characterize the trigger. -/
theorem ChatBotSpec.C6_counterexample :
    (["time", "date", "what time is it?", "what time is it",
      "what\x27s the time?", "what is the date?", "what is the date"] :
        List String).Nodup ∧
    (["time", "date", "what time is it?", "what time is it",
      "what\x27s the time?", "what is the date?", "what is the date"].all
        (fun p => ChatBotSpec.route p == ChatBotSpec.Command.time)) = true ∧
    ["time", "date", "what time is it?", "what time is it",
      "what\x27s the time?", "what is the date?", "what is the date"].length = 7 := by
  refine ⟨by decide, by decide, by decide⟩

/-- C6 amended: the time and date command is triggered by exactly 7 fixed
phrasings: an input is routed to the current date-time emitter if and
only if it is one of the 7 exact-match phrases of chat.cpp lines
380-382. -/
theorem ChatBotSpec.C6_amended (input : String) :
    ChatBotSpec.route input = ChatBotSpec.Command.time ↔
      input ∈ ["time", "date", "what time is it?", "what time is it",
        "what\x27s the time?", "what is the date?", "what is the date"] := by
  rw [ChatBotSpec.route_time_iff]
  unfold ChatBotSpec.isTimeToken
  simp only [Bool.or_eq_true, beq_iff_eq, List.mem_cons, List.mem_singleton,
    List.not_mem_nil, or_false]
  tauto

namespace ChatBotSpec

theorem calcLoop_length_le (l : List String) : (calcLoop l).length ≤ l.length := by
  induction l with
  | nil => simp [calcLoop]
  | cons a t ih =>
    unfold calcLoop
    by_cases hx : isCalcExit (Util.trim a) = true
    · rw [if_pos hx]
      simp
    · rw [if_neg hx]
      exact Nat.le_succ_of_le ih

theorem streamEffect_length_le (input : String) (rest : List String) :
    (streamEffect input rest).length ≤ rest.length := by
  unfold streamEffect
  cases route input <;> first
    | exact Nat.le_refl _
    | exact calcLoop_length_le rest

theorem stateEffect_history (s : BotState) (input : String) :
    (stateEffect s input).history = s.history := by
  unfold stateEffect
  cases route input <;> rfl

theorem stateEffect_running (s : BotState) (input : String) :
    (stateEffect s input).running = false ↔
      (s.running = false ∨ isExitToken input = true) := by
  by_cases hx : isExitToken input = true
  · have hr : route input = Command.exit := (route_exit_iff input).mpr hx
    unfold stateEffect
    rw [hr]
    simp [hx]
  · have hr : route input ≠ Command.exit := by
      intro hc
      exact hx ((route_exit_iff input).mp hc)
    have hse : stateEffect s input = s := by
      unfold stateEffect
      cases hroute : route input
      case exit => exact absurd hroute hr
      all_goals rfl
    rw [hse]
    simp [hx]

theorem runLoop_stopped (s : BotState) (inputs : List String) (h : s.running = false) :
    runLoop s inputs = (s, [], inputs) := by
  cases inputs with
  | nil => rfl
  | cons raw rest =>
    show runLoopAux (rest.length + 1 + 1) s (raw :: rest) = (s, [], raw :: rest)
    simp only [runLoopAux, if_pos h]

theorem runLoopAux_leftover (fuel : Nat) :
    ∀ (s : BotState) (inputs : List String), inputs.length < fuel →
      (runLoopAux fuel s inputs).1.running = true →
      (runLoopAux fuel s inputs).2.2 = [] := by
  induction fuel with
  | zero =>
    intro s inputs h
    exact absurd h (by omega)
  | succ f ih =>
    intro s inputs hlen hrun
    cases inputs with
    | nil => rfl
    | cons raw rest =>
      by_cases hr : s.running = false
      · simp only [runLoopAux, if_pos hr] at hrun
        rw [hr] at hrun
        exact absurd hrun (by decide)
      · simp only [runLoopAux, if_neg hr] at hrun ⊢
        by_cases he : Util.normalize raw = ""
        · rw [if_pos he] at hrun ⊢
          have hlen2 : rest.length < f := by
            simp only [List.length_cons] at hlen
            omega
          exact ih s rest hlen2 hrun
        · rw [if_neg he] at hrun ⊢
          have hlen2 : (streamEffect (Util.normalize raw) rest).length < f := by
            have := streamEffect_length_le (Util.normalize raw) rest
            simp only [List.length_cons] at hlen
            omega
          exact ih _ _ hlen2 hrun

theorem runLoopAux_history (fuel : Nat) :
    ∀ (s : BotState) (inputs : List String), inputs.length < fuel →
      (runLoopAux fuel s inputs).1.history =
        s.history ++ (runLoopAux fuel s inputs).2.1 := by
  induction fuel with
  | zero =>
    intro s inputs h
    exact absurd h (by omega)
  | succ f ih =>
    intro s inputs hlen
    cases inputs with
    | nil => simp [runLoopAux]
    | cons raw rest =>
      by_cases hr : s.running = false
      · simp [runLoopAux, if_pos hr]
      · simp only [runLoopAux, if_neg hr]
        by_cases he : Util.normalize raw = ""
        · rw [if_pos he]
          have hlen2 : rest.length < f := by
            simp only [List.length_cons] at hlen
            omega
          exact ih s rest hlen2
        · rw [if_neg he]
          have hlen2 : (streamEffect (Util.normalize raw) rest).length < f := by
            have := streamEffect_length_le (Util.normalize raw) rest
            simp only [List.length_cons] at hlen
            omega
          have hrec := ih
            (stateEffect { s with history := s.history ++ [Util.normalize raw] }
              (Util.normalize raw))
            (streamEffect (Util.normalize raw) rest) hlen2
          rw [stateEffect_history] at hrec
          dsimp only
          rw [hrec]
          simp

end ChatBotSpec

/-- C5 fails on the code as stated: falsity of the running flag is not the
sole loop-exit condition, because `run` also breaks out of the loop when
`getline` fails at end of input (chat.cpp line 118).  A session whose
input stream ends after the single non-exit line "hi" terminates with the
whole stream consumed and the flag still true. -/
theorem ChatBotSpec.C5_counterexample :
    (ChatBotSpec.runLoop ChatBotSpec.initialState ["hi"]).2.2 = [] ∧
    (ChatBotSpec.runLoop ChatBotSpec.initialState ["hi"]).1.running = true ∧
    ChatBotSpec.runLoop ChatBotSpec.initialState ["hi"] =
      ({ running := true, history := ["hi"] }, ["hi"], []) :=
  ⟨by decide, by decide, by decide⟩

/-- C5 amended: the running flag is true at session start and an exit
token is the only input that makes it false (at most once: once false the
loop reads nothing further); the main loop terminates either because the
flag became false or because the input stream is exhausted, and when it
terminates with the flag still true the stream was fully consumed
(end-of-input is the other termination condition, chat.cpp lines
111-128 and 361-365). -/
theorem ChatBotSpec.C5_amended :
    ChatBotSpec.initialState.running = true ∧
    (∀ (s : ChatBotSpec.BotState) (input : String),
      (ChatBotSpec.stateEffect s input).running = false ↔
        (s.running = false ∨ ChatBotSpec.isExitToken input = true)) ∧
    (∀ (s : ChatBotSpec.BotState) (inputs : List String), s.running = false →
      ChatBotSpec.runLoop s inputs = (s, [], inputs)) ∧
    (∀ (s : ChatBotSpec.BotState) (inputs : List String),
      (ChatBotSpec.runLoop s inputs).1.running = true →
      (ChatBotSpec.runLoop s inputs).2.2 = []) := by
  refine ⟨rfl, ChatBotSpec.stateEffect_running, ChatBotSpec.runLoop_stopped, ?_⟩
  intro s inputs h
  unfold ChatBotSpec.runLoop at h ⊢
  exact ChatBotSpec.runLoopAux_leftover (inputs.length + 1) s inputs (by omega) h

/-- Witness for the amended C5: a stopped session reads nothing. -/
theorem ChatBotSpec.C5_witness :
    ChatBotSpec.runLoop { running := false, history := [] } ["hi"] =
      ({ running := false, history := [] }, [], ["hi"]) :=
  ChatBotSpec.C5_amended.2.2.1 { running := false, history := [] } ["hi"] rfl

/-- C7: a raw line whose normalized form is empty is skipped by the outer
loop before any processing: the session is identical to one in which the
line never occurred, so nothing is dispatched, nothing is emitted, and
the history log is unchanged (chat.cpp lines 120-121). -/
theorem ChatBotSpec.C7_empty_input_skipped (s : ChatBotSpec.BotState) (raw : String)
    (rest : List String) (hrun : s.running = true)
    (hempty : ChatBotSpec.Util.normalize raw = "") :
    ChatBotSpec.runLoop s (raw :: rest) = ChatBotSpec.runLoop s rest := by
  show ChatBotSpec.runLoopAux (rest.length + 1 + 1) s (raw :: rest) =
    ChatBotSpec.runLoopAux (rest.length + 1) s rest
  simp only [ChatBotSpec.runLoopAux]
  rw [if_neg (by simp [hrun]), if_pos hempty]

/-- Witness for C7: a whitespace-only line leaves the session exactly as
it was. -/
theorem ChatBotSpec.C7_witness :
    ChatBotSpec.runLoop ChatBotSpec.initialState ["   "] =
      ChatBotSpec.runLoop ChatBotSpec.initialState [] :=
  ChatBotSpec.C7_empty_input_skipped ChatBotSpec.initialState "   " [] rfl (by decide)

/-- C9: across any session, the final history equals the starting history
followed by exactly the inputs passed to `processInput`, in order — every
non-empty normalized input, commands and the exit token included, is
recorded exactly once, before dispatch (chat.cpp lines 123-124); hence
the message count reported at goodbye counts commands and the final exit
token: the session "hi", "uptime", "bye" reports 3 messages. -/
theorem ChatBotSpec.C9_history_counts_all :
    (∀ (s : ChatBotSpec.BotState) (inputs : List String),
      (ChatBotSpec.runLoop s inputs).1.history =
        s.history ++ (ChatBotSpec.runLoop s inputs).2.1) ∧
    (ChatBotSpec.runLoop ChatBotSpec.initialState ["hi", "uptime", "bye"]).1.history =
      ["hi", "uptime", "bye"] ∧
    ChatBotSpec.messageCount
      (ChatBotSpec.runLoop ChatBotSpec.initialState ["hi", "uptime", "bye"]).1 = 3 := by
  refine ⟨?_, by decide, by decide⟩
  intro s inputs
  unfold ChatBotSpec.runLoop
  exact ChatBotSpec.runLoopAux_history (inputs.length + 1) s inputs (by omega)
